import Mathlib

/-!
Shallow embedding of the scoreboard scoring engine
(`src/scoreboard/tasks.py`, `src/scoreboard/scoreboard.py`) of the
`parallel_programming_course` repository, together with theorems checking the
natural-language specification against it.

Modelling conventions:
* Python `float` values are embedded as exact rationals (`ℚ`); Python
  `round(x, 2)` is embedded as rounding to the nearest multiple of `1/100`
  with ties to even (`round2`), matching Python's round-half-to-even.
* Python `datetime` instants are embedded as integer timestamps in seconds;
  `timedelta.days` is floor division of the difference by `86400`.
* The effectful git lookup `Task._git_commit_time` is embedded as an oracle
  `git : String → Option ℤ` mapping an implementation path to the last commit
  time (`Option.none` = unknown), passed explicitly to the scoring functions.
* Optional `float` fields that Python code tests against the sentinel set
  `{None, "", "?", "N/A"}` are embedded as `PyVal` (absent, number or string);
  Python `float(...)`/`int(...)` conversions that may raise are embedded as
  `Option`-returning literal parsers restricted to plain decimal literals.
-/

/-- Round a rational to the nearest integer, ties to the even integer.
Models Python's `round` (banker's rounding) on exact values. -/
def rndHE (q : ℚ) : ℤ :=
  if q - (⌊q⌋ : ℚ) < 1/2 then ⌊q⌋
  else if 1/2 < q - (⌊q⌋ : ℚ) then ⌊q⌋ + 1
  else if ⌊q⌋ % 2 = 0 then ⌊q⌋ else ⌊q⌋ + 1

/-- Python `round(x, 2)`: round to the nearest multiple of `1/100`. -/
def round2 (q : ℚ) : ℚ := ((rndHE (q * 100) : ℤ) : ℚ) / 100

/-- Python f-string formatting `:.2f` (two decimal places). -/
def fmt2 (q : ℚ) : String :=
  let n : ℤ := rndHE (q * 100)
  let a : ℕ := n.natAbs
  let frac : ℕ := a % 100
  let fracStr := (if frac < 10 then "0" else "") ++ toString frac
  (if n < 0 then "-" else "") ++ toString (a / 100) ++ "." ++ fracStr

/-- A Python value occupying an `Optional[float]` timing field: `None`, an
actual number, or a stray string (the code checks for sentinel strings
`""`, `"?"`, `"N/A"`, so strings are realizable inputs). -/
inductive PyVal where
  | none
  | num (q : ℚ)
  | str (s : String)
deriving DecidableEq, Repr

/-- Membership of a timing value in the sentinel set
`invalid = {None, "", "?", "N/A"}` from `Task._performance_metrics`
(a number is never a member). -/
def isInvalidVal : PyVal → Bool
  | .none => true
  | .num _ => false
  | .str s => s = "" || s = "?" || s = "N/A"

/-- Numeric value of a list of decimal digit characters. -/
def digitsVal (l : List Char) : ℕ :=
  l.foldl (fun a c => 10 * a + (c.toNat - 48)) 0

/-- Model of Python `str.strip()`: drop whitespace from both ends
(over the character list, so it evaluates in the kernel). -/
def pyStrip (s : String) : List Char :=
  ((s.data.dropWhile Char.isWhitespace).reverse.dropWhile
    Char.isWhitespace).reverse

/-- Model of Python `str.upper()` on ASCII data. -/
def pyUpper (s : String) : String :=
  ⟨s.data.map Char.toUpper⟩

/-- Model of Python `float(s)` on a string, restricted to plain (optionally
signed) decimal literals such as `"3"`, `"-2.5"`, `"1."`, `".5"`; anything
else (including exponent/infinity forms, which never occur in this program's
data) is a conversion failure, i.e. a raised `ValueError`. -/
def parseFloatLit (s : String) : Option ℚ :=
  let cs := pyStrip s
  let signed : ℚ × List Char :=
    match cs with
    | '-' :: rest => (-1, rest)
    | '+' :: rest => (1, rest)
    | _ => (1, cs)
  let sign := signed.1
  let ds := signed.2
  let intPart := ds.takeWhile Char.isDigit
  let rest := ds.dropWhile Char.isDigit
  match rest with
  | [] =>
      if intPart.isEmpty then Option.none
      else some (sign * (digitsVal intPart : ℚ))
  | '.' :: fracPart =>
      if fracPart.all Char.isDigit && !(intPart.isEmpty && fracPart.isEmpty) then
        some (sign * ((digitsVal intPart : ℚ)
          + (digitsVal fracPart : ℚ) / (10 : ℚ) ^ fracPart.length))
      else Option.none
  | _ => Option.none

/-- Model of Python `float(v)` on a timing value: a number converts to
itself, `None` raises (`Option.none`), a string goes through the literal
parser. -/
def pyFloat : PyVal → Option ℚ
  | .none => Option.none
  | .num q => some q
  | .str s => parseFloatLit s

-- ---------------------------------------------------------------------------
-- Shared scoring helpers of the abstract `Task` (src/scoreboard/tasks.py)
-- ---------------------------------------------------------------------------

/-- `Task._deadline_penalty`: 0 unless the status is exactly `"done"`, the
task has a due instant and the path is present with a known last commit time;
otherwise `-days_late` when the whole-days delta is positive, else 0. -/
def deadline_penalty (git : String → Option ℤ) (due : Option ℤ)
    (path : Option String) (status : Option String) : ℚ :=
  match status, due, path with
  | some "done", some d, some p =>
      match git p with
      | Option.none => 0
      | some commit =>
          let days_late : ℤ := (commit - d).fdiv 86400
          if 0 < days_late then (-days_late : ℤ) else 0
  | _, _, _ => 0

/-- `Task._performance_metrics`: returns
`(efficiency_value, acceleration_str, efficiency_str)`; any sentinel,
unparseable or non-positive time yields `(none, "—", "—")`. -/
def performance_metrics (eff_num_proc : ℤ) (perf_val seq_val : PyVal) :
    Option ℚ × String × String :=
  if isInvalidVal perf_val || isInvalidVal seq_val then (Option.none, "—", "—")
  else
    match pyFloat seq_val, pyFloat perf_val with
    | some seq_t, some par_t =>
        if seq_t ≤ 0 ∨ par_t ≤ 0 then (Option.none, "—", "—")
        else
          let speedup := seq_t / par_t
          let eff_value := speedup / ((max eff_num_proc 1 : ℤ) : ℚ)
          (some eff_value, fmt2 speedup, fmt2 eff_value)
    | _, _ => (Option.none, "—", "—")

/-- `Task._efficiency_to_points`: 0 when the efficiency is undefined or the
budget is non-positive; otherwise the first `(threshold, percent)` pair of
the scale (in the given order) whose threshold the efficiency meets or
exceeds decides `round(max_points * percent, 2)`; no match yields 0. -/
def efficiency_to_points (scale : List (ℚ × ℚ))
    (efficiency_value : Option ℚ) (max_points : ℤ) : ℚ :=
  match efficiency_value with
  | Option.none => 0
  | some e =>
      if max_points ≤ 0 then 0
      else
        match scale.find? (fun tp => decide (tp.1 ≤ e)) with
        | some tp => round2 ((max_points : ℚ) * tp.2)
        | Option.none => 0

-- ---------------------------------------------------------------------------
-- TaskScore (src/scoreboard/tasks.py, class TaskScore)
-- ---------------------------------------------------------------------------

/-- `DeadlineInfo`: a label and an optional due instant (seconds). -/
structure DeadlineInfo where
  label : String := ""
  due : Option ℤ := Option.none
deriving DecidableEq, Repr

/-- `TaskScore`: one scored cell, with the source's default field values. -/
structure TaskScore where
  solution_points : ℚ := 0
  solution_class : String := ""
  performance_points : ℚ := 0
  performance_display : String := "—"
  acceleration : String := "—"
  efficiency : String := "—"
  deadline_penalty : ℚ := 0
  copy_penalty : ℚ := 0
  copy_class : String := ""
  report_points : ℚ := 0
  report_class : String := ""
deriving DecidableEq, Repr

/-- `TaskScore.total`: `round(solution + performance + report + copy, 2)`. -/
def TaskScore.total (ts : TaskScore) : ℚ :=
  round2 (ts.solution_points + ts.performance_points + ts.report_points
    + ts.copy_penalty)

-- ---------------------------------------------------------------------------
-- Thread tasks (src/scoreboard/tasks.py, ThreadSubmission / ThreadTask)
-- ---------------------------------------------------------------------------

/-- `ThreadSubmission`: observed facts for one student on one thread task. -/
structure ThreadSubmission where
  task_name : String
  status : Option String
  work_dir : String
  perf_time : PyVal
  seq_time : PyVal
  report_present : Bool
  copied : Bool
deriving DecidableEq, Repr

/-- `ThreadSubmission.impl_path`: `work_dir / task_name`. -/
def ThreadSubmission.impl_path (s : ThreadSubmission) : String :=
  s.work_dir ++ "/" ++ s.task_name

/-- `ThreadTask`: a thread-track task configuration (the flattened fields of
the Python `Task` base class plus the `ThreadTask` subclass). -/
structure ThreadTask where
  name : String
  display_name : String
  s_points : ℤ
  a_points : ℤ
  r_points : ℤ
  deadline : DeadlineInfo
  copy_coeff : ℚ
  eff_num_proc : ℤ
  efficiency_scale : List (ℚ × ℚ)
deriving DecidableEq, Repr

/-- `ThreadTask.calculate_score`, with the git-commit-time oracle made
explicit.  A `None` submission yields the default (all-zero) `TaskScore`. -/
def ThreadTask.calculate_score (t : ThreadTask) (git : String → Option ℤ)
    (submission : Option ThreadSubmission) : TaskScore :=
  match submission with
  | Option.none => {}
  | some sub =>
      let status := sub.status
      let solution_points : ℚ :=
        if status = some "done" ∨ status = some "disabled" then (t.s_points : ℚ)
        else 0
      let solution_class : String :=
        if status = some "done" then "cell-success"
        else if status = some "disabled" then "cell-muted" else ""
      let dl := deadline_penalty git t.deadline.due (some sub.impl_path) status
      let copy_penalty : ℚ :=
        if sub.copied then -t.copy_coeff * solution_points else 0
      let copy_class : String :=
        if sub.copied ∨ status = some "disabled" then "cell-warning" else ""
      let report_points : ℚ := if sub.report_present then (t.r_points : ℚ) else 0
      let report_class : String := if report_points ≠ 0 then "cell-success" else ""
      if t.name = "seq" then
        { solution_points := solution_points
          solution_class := solution_class
          performance_points := 0
          performance_display := "—"
          acceleration := "—"
          efficiency := "—"
          deadline_penalty := dl
          copy_penalty := copy_penalty
          copy_class := copy_class
          report_points := report_points
          report_class := report_class }
      else
        let m := performance_metrics t.eff_num_proc sub.perf_time sub.seq_time
        let eff_value := m.1
        let perf_points := efficiency_to_points t.efficiency_scale eff_value t.a_points
        let perf_display := if eff_value.isSome then fmt2 perf_points else "—"
        { solution_points := solution_points
          solution_class := solution_class
          performance_points := perf_points
          performance_display := perf_display
          acceleration := m.2.1
          efficiency := m.2.2
          deadline_penalty := dl
          copy_penalty := copy_penalty
          copy_class := copy_class
          report_points := report_points
          report_class := report_class }

-- ---------------------------------------------------------------------------
-- Process tasks (src/scoreboard/tasks.py, ProcessSubmission / ProcessTask)
-- ---------------------------------------------------------------------------

/-- `ProcessSubmission`: observed facts for one student on one numbered
process (seq+mpi paired) task. -/
structure ProcessSubmission where
  task_number : ℤ
  seq_status : Option String
  mpi_status : Option String
  work_dir : Option String
  seq_time : PyVal
  mpi_time : PyVal
  report_present : Bool
  seq_copied : Bool
  mpi_copied : Bool
deriving DecidableEq, Repr

/-- `ProcessSubmission.impl_path`: `work_dir / impl_name`, `None` when the
submission has no working directory. -/
def ProcessSubmission.impl_path (s : ProcessSubmission) (impl_name : String) :
    Option String :=
  s.work_dir.map (fun w => w ++ "/" ++ impl_name)

/-- The `{"S": ..., "A": ...}` point dictionaries of `ProcessTask`
(`mpi_points` / `seq_points`), embedded by the two keys the code reads. -/
structure PointsSA where
  S : ℤ
  A : ℤ
deriving DecidableEq, Repr

/-- `ProcessScore`: paired seq/mpi cells plus one shared report bonus. -/
structure ProcessScore where
  seq : TaskScore
  mpi : TaskScore
  report_points : ℚ
deriving DecidableEq, Repr

/-- `ProcessScore.total`: `round(seq.total + mpi.total + report_points, 2)`. -/
def ProcessScore.total (ps : ProcessScore) : ℚ :=
  round2 (ps.seq.total + ps.mpi.total + ps.report_points)

/-- `ProcessTask`: a process-track task configuration. -/
structure ProcessTask where
  name : String
  display_name : String
  mpi_points : PointsSA
  seq_points : PointsSA
  r_points : ℤ
  variants_max : ℤ
  deadline : DeadlineInfo
  copy_coeff : ℚ
  eff_num_proc : ℤ
  efficiency_scale : List (ℚ × ℚ)
deriving DecidableEq, Repr

/-- `ProcessTask.calculate_score`, with the git oracle made explicit.
A `None` submission yields all-zero seq/mpi cells and 0 report points. -/
def ProcessTask.calculate_score (t : ProcessTask) (git : String → Option ℤ)
    (submission : Option ProcessSubmission) : ProcessScore :=
  match submission with
  | Option.none => { seq := {}, mpi := {}, report_points := 0 }
  | some sub =>
      let seq_solution : ℚ :=
        if sub.seq_status = some "done" ∨ sub.seq_status = some "disabled" then
          (t.seq_points.S : ℚ)
        else 0
      let seq_solution_class : String :=
        if sub.seq_status = some "done" then "cell-success"
        else if sub.seq_status = some "disabled" then "cell-muted" else ""
      let seq_deadline :=
        deadline_penalty git t.deadline.due (sub.impl_path "seq") sub.seq_status
      let seq_copy_penalty : ℚ :=
        if sub.seq_copied then -t.copy_coeff * seq_solution else 0
      let seq_copy_class : String :=
        if sub.seq_copied ∨ sub.seq_status = some "disabled" then "cell-warning"
        else ""
      let seq_score : TaskScore :=
        { solution_points := seq_solution
          solution_class := seq_solution_class
          deadline_penalty := seq_deadline
          copy_penalty := seq_copy_penalty
          copy_class := seq_copy_class }
      let mpi_solution : ℚ :=
        if sub.mpi_status = some "done" ∨ sub.mpi_status = some "disabled" then
          (t.mpi_points.S : ℚ)
        else 0
      let mpi_solution_class : String :=
        if sub.mpi_status = some "done" then "cell-success"
        else if sub.mpi_status = some "disabled" then "cell-muted" else ""
      let mpi_deadline :=
        deadline_penalty git t.deadline.due (sub.impl_path "mpi") sub.mpi_status
      let mpi_copy_penalty : ℚ :=
        if sub.mpi_copied then -t.copy_coeff * mpi_solution else 0
      let mpi_copy_class : String :=
        if sub.mpi_copied ∨ sub.mpi_status = some "disabled" then "cell-warning"
        else ""
      let m := performance_metrics t.eff_num_proc sub.mpi_time sub.seq_time
      let eff_value := m.1
      let perf_points := efficiency_to_points t.efficiency_scale eff_value t.mpi_points.A
      let perf_display := if eff_value.isSome then fmt2 perf_points else "—"
      let mpi_score : TaskScore :=
        { solution_points := mpi_solution
          solution_class := mpi_solution_class
          performance_points := perf_points
          performance_display := perf_display
          acceleration := m.2.1
          efficiency := m.2.2
          deadline_penalty := mpi_deadline
          copy_penalty := mpi_copy_penalty
          copy_class := mpi_copy_class }
      let report_points : ℚ := if sub.report_present then (t.r_points : ℚ) else 0
      { seq := seq_score, mpi := mpi_score, report_points := report_points }

-- ---------------------------------------------------------------------------
-- Process-track assembly (src/scoreboard/scoreboard.py)
-- ---------------------------------------------------------------------------

/-- A JSON value occupying the `task_number` field of a student's
`info.json` (the loader returns raw JSON, so null, integers, non-integral
numbers and strings are all realizable). -/
inductive InfoVal where
  | null
  | int (n : ℤ)
  | float (q : ℚ)
  | str (s : String)
deriving DecidableEq, Repr

/-- Model of Python `int(s)` on a string: optional sign and a nonempty
digit run after stripping whitespace; anything else raises. -/
def parseIntLit (s : String) : Option ℤ :=
  let cs := pyStrip s
  let signed : ℤ × List Char :=
    match cs with
    | '-' :: rest => (-1, rest)
    | '+' :: rest => (1, rest)
    | _ => (1, cs)
  if signed.2.isEmpty || !(signed.2.all Char.isDigit) then Option.none
  else some (signed.1 * (digitsVal signed.2 : ℤ))

/-- Model of Python `int(v)` on a JSON value: integers convert to
themselves, numbers truncate toward zero, strings go through the integer
literal parser, null raises. -/
def pyInt : InfoVal → Option ℤ
  | .null => Option.none
  | .int n => some n
  | .float q => some (if 0 ≤ q then ⌊q⌋ else ⌈q⌉)
  | .str s => parseIntLit s

/-- `_normalize_group`: strip and upper-case the group string. -/
def normalize_group (group : String) : String := pyUpper ⟨pyStrip group⟩

/-- The `student` block of a folder's `info.json`, with the string fields
already defaulted to `""` as `dict.get(..., "")` does; `task_number` is
`Option.none` when the key is absent. -/
structure StudentInfo where
  last_name : String := ""
  first_name : String := ""
  middle_name : String := ""
  group_number : String := ""
  task_number : Option InfoVal := Option.none
deriving DecidableEq, Repr

/-- `Scoreboard._identity_key`: pipe-join of the three name fields and the
normalized group. -/
def identity_key_info (info : StudentInfo) : String :=
  info.last_name ++ "|" ++ info.first_name ++ "|" ++ info.middle_name ++ "|"
    ++ normalize_group info.group_number

/-- The slice of `Student` that process-track assembly uses: identity
fields plus the `process_submissions` mapping (an insertion-ordered
association list, like a Python dict). -/
structure PStudent where
  last_name : String
  first_name : String
  middle_name : String
  group_number : String
  process_submissions : List (String × ProcessSubmission) := []
deriving DecidableEq, Repr

/-- `Student.identity_key`: pipe-join of the stored identity fields. -/
def PStudent.identity_key (s : PStudent) : String :=
  s.last_name ++ "|" ++ s.first_name ++ "|" ++ s.middle_name ++ "|"
    ++ s.group_number

/-- `Student.add_process_submission`: `dict[task_name] = submission`
(insertion at the end; the name is always fresh when called, thanks to
`_ensure_unique_submission`). -/
def PStudent.add_process_submission (s : PStudent) (task_name : String)
    (submission : ProcessSubmission) : PStudent :=
  { s with process_submissions := s.process_submissions ++ [(task_name, submission)] }

/-- The `Student(...)` construction in `_build_process_students`. -/
def mkPStudent (info : StudentInfo) : PStudent :=
  { last_name := info.last_name
    first_name := info.first_name
    middle_name := info.middle_name
    group_number := normalize_group info.group_number }

/-- One discovered task folder of the process track, bundling the externally
loaded facts the assembly loop consumes: the resolved working directory, the
parsed `info.json` student block, the per-implementation statuses
(`statuses.get("seq")` / `statuses.get("mpi")`), the benchmark entry, the
report-file test and the plagiarism flags. -/
structure Folder where
  work_dir : String
  info : StudentInfo
  seq_status : Option String := Option.none
  mpi_status : Option String := Option.none
  seq_time : PyVal := .none
  mpi_time : PyVal := .none
  report_present : Bool := false
  seq_copied : Bool := false
  mpi_copied : Bool := false
deriving DecidableEq, Repr

/-- The `RuntimeError`s of process-track assembly, by raise site, carrying
the data interpolated into the source's message strings. -/
inductive BuildError where
  /-- "Invalid task_number in {work_dir}/info.json for {identity}" -/
  | invalidTaskNumber (work_dir identity : String)
  /-- "No process tasks configured; cannot assign task_number" -/
  | noProcessTasks
  /-- "task_number out of range in {work_dir}/info.json for {identity}:
  {task_number} (allowed 1..{num_tasks})" -/
  | outOfRange (work_dir identity : String) (task_number num_tasks : ℤ)
  /-- "Duplicate process task {task_name} for student {identity} in
  {work_dir} and {previous work_dir}" -/
  | duplicateTask (task_name identity work_dir : String)
deriving DecidableEq, Repr

/-- `Scoreboard._parse_task_number`: `int(student_info.get("task_number", 1))`,
a conversion failure raising a `RuntimeError` naming folder and student. -/
def parse_task_number (info : StudentInfo) (work_dir identity : String) :
    Except BuildError ℤ :=
  match info.task_number with
  | Option.none => .ok 1
  | some v =>
      match pyInt v with
      | some n => .ok n
      | Option.none => .error (.invalidTaskNumber work_dir identity)

/-- `Scoreboard._validate_task_number`. -/
def validate_task_number (task_number num_tasks : ℤ)
    (work_dir identity : String) : Except BuildError Unit :=
  if num_tasks ≤ 0 then .error .noProcessTasks
  else if task_number < 1 ∨ num_tasks < task_number then
    .error (.outOfRange work_dir identity task_number num_tasks)
  else .ok ()

/-- Python `dict` lookup over an insertion-ordered association list. -/
def alookup {beta : Type} : List (String × beta) → String → Option beta
  | [], _ => Option.none
  | (k, v) :: rest, key => if k = key then some v else alookup rest key

/-- `Scoreboard._ensure_unique_submission`: raise when the task name is
already among the student's process submissions. -/
def ensure_unique_submission (student : PStudent) (task_name : String)
    (work_dir identity : String) : Except BuildError Unit :=
  if (alookup student.process_submissions task_name).isSome then
    .error (.duplicateTask task_name identity work_dir)
  else .ok ()

/-- `Scoreboard._make_process_submission`. -/
def make_process_submission (task_number : ℤ) (f : Folder) : ProcessSubmission :=
  { task_number := task_number
    seq_status := f.seq_status
    mpi_status := f.mpi_status
    work_dir := some f.work_dir
    seq_time := f.seq_time
    mpi_time := f.mpi_time
    report_present := f.report_present
    seq_copied := f.seq_copied
    mpi_copied := f.mpi_copied }

/-- Replace the value stored under the first occurrence of `key`. -/
def updateStudent (m : List (String × PStudent)) (key : String)
    (st : PStudent) : List (String × PStudent) :=
  match m with
  | [] => []
  | (k, v) :: rest =>
      if k = key then (k, st) :: rest else (k, v) :: updateStudent rest key st

/-- The body of the `_build_process_students` loop for one folder, over the
`students_by_identity` dict (an insertion-ordered association list).
Mirrors the source order: identity check (`if not identity: continue` — the
skip branch), lookup-or-create of the student, task-number parse and
validation, duplicate check, then submission insertion. -/
def processFolder (num_tasks : ℤ) (acc : List (String × PStudent))
    (f : Folder) : Except BuildError (List (String × PStudent)) :=
  let info := f.info
  let identity := identity_key_info info
  if identity = "" then .ok acc
  else
    let found := alookup acc identity
    let student :=
      match found with
      | some st => st
      | Option.none => mkPStudent info
    let acc1 :=
      match found with
      | some _ => acc
      | Option.none => acc ++ [(student.identity_key, student)]
    match parse_task_number info f.work_dir identity with
    | .error e => .error e
    | .ok task_number =>
        match validate_task_number task_number num_tasks f.work_dir identity with
        | .error e => .error e
        | .ok _ =>
            let task_name := "mpi_task_" ++ toString task_number
            match ensure_unique_submission student task_name f.work_dir identity with
            | .error e => .error e
            | .ok _ =>
                let submission := make_process_submission task_number f
                .ok (updateStudent acc1 identity
                  (student.add_process_submission task_name submission))

/-- `Scoreboard._build_process_students`: fold the loop body over the
discovered folders, propagating the first raised error. -/
def buildProcessStudents (num_tasks : ℤ) (folders : List Folder)
    (acc : List (String × PStudent)) :
    Except BuildError (List (String × PStudent)) :=
  match folders with
  | [] => .ok acc
  | f :: rest =>
      match processFolder num_tasks acc f with
      | .error e => .error e
      | .ok acc1 => buildProcessStudents num_tasks rest acc1

/-- `Scoreboard._collect_identities`: the set of nonempty identity keys seen
across raw folders (embedded as a deduplicated list; its length is the set's
cardinality). -/
def collect_identities (folders : List Folder) : List String :=
  ((folders.map (fun f => identity_key_info f.info)).filter
    (fun i => i ≠ "")).dedup

/-- The processes half of the consistency guard in `Scoreboard.from_files`:
compare the number of distinct identities across raw folders with the number
of assembled student rows; raise on mismatch. -/
def processes_consistency_guard (folders : List Folder)
    (students : List (String × PStudent)) : Except String Unit :=
  if (collect_identities folders).length ≠ students.length then
    .error ("Processes track mismatch: discovered "
      ++ toString (collect_identities folders).length
      ++ " unique students across task folders, produced "
      ++ toString students.length
      ++ " rows. Likely missing or duplicate student info.")
  else .ok ()

-- ---------------------------------------------------------------------------
-- Derived predicates used in theorem statements
-- ---------------------------------------------------------------------------

/-- A timing value is missing or malformed for `Task._performance_metrics`:
a sentinel (`None`, `""`, `"?"`, `"N/A"`), a value Python `float()` rejects,
or a non-positive number. -/
def timeBad (v : PyVal) : Bool :=
  isInvalidVal v ||
    (match pyFloat v with
     | Option.none => true
     | some q => decide (q ≤ 0))

/-- The task number `_parse_task_number` would extract from a folder:
`some n` when `int(info.get("task_number", 1))` succeeds with `n`,
`Option.none` when the conversion raises. -/
def folderTaskNumber (f : Folder) : Option ℤ :=
  match f.info.task_number with
  | Option.none => some 1
  | some v => pyInt v

/-- The process-task name derived from a task number. -/
def mpiTaskName (n : ℤ) : String := "mpi_task_" ++ toString n

/-- The student object the `_build_process_students` loop body works with
for a folder: the one found under the folder's identity key, or a freshly
constructed one. -/
def pfStudent (acc : List (String × PStudent)) (f : Folder) : PStudent :=
  match alookup acc (identity_key_info f.info) with
  | some st => st
  | Option.none => mkPStudent f.info

/-- The student map after the lookup-or-create step of the loop body. -/
def pfAcc1 (acc : List (String × PStudent)) (f : Folder) :
    List (String × PStudent) :=
  match alookup acc (identity_key_info f.info) with
  | some _ => acc
  | Option.none =>
      acc ++ [((mkPStudent f.info).identity_key, mkPStudent f.info)]

/-- The student map records a submission under `(identity, task_name)`. -/
def hasPair (m : List (String × PStudent)) (id tn : String) : Prop :=
  ∃ st, alookup m id = some st ∧ (alookup st.process_submissions tn).isSome = true

-- ---------------------------------------------------------------------------
-- Concrete instances used by witnesses and counterexamples
-- ---------------------------------------------------------------------------

/-- A git oracle that knows no commit times. -/
def noGit : String → Option ℤ := fun _ => Option.none

/-- An `omp` thread task with the spec's worked scenario configuration:
solution 20, performance 10, scale `[(0.5, 1.0), (0.25, 0.5)]`, 4 procs. -/
def ompScenarioTask : ThreadTask :=
  { name := "omp", display_name := "omp", s_points := 20, a_points := 10,
    r_points := 0, deadline := {}, copy_coeff := 0, eff_num_proc := 4,
    efficiency_scale := [(1/2, 1), (1/4, 1/2)] }

/-- A `done` submission with parallel time 2 s and seq time 8 s. -/
def ompScenarioSub : ThreadSubmission :=
  { task_name := "omp", status := some "done", work_dir := "w",
    perf_time := .num 2, seq_time := .num 8, report_present := false,
    copied := false }

/-- A `seq` task whose copy coefficient is `1/3`, so the exact component
sum is not a multiple of `1/100`. -/
def thirdCoeffTask : ThreadTask :=
  { name := "seq", display_name := "seq", s_points := 1, a_points := 0,
    r_points := 0, deadline := {}, copy_coeff := 1/3, eff_num_proc := 1,
    efficiency_scale := [] }

/-- A `seq` task with copy coefficient 2 (the configuration is not
validated to stay within `[0, 1]`). -/
def doubleCoeffTask : ThreadTask :=
  { name := "seq", display_name := "seq", s_points := 1, a_points := 0,
    r_points := 0, deadline := {}, copy_coeff := 2, eff_num_proc := 1,
    efficiency_scale := [] }

/-- A `done` submission flagged as copied. -/
def copiedDoneSub : ThreadSubmission :=
  { task_name := "seq", status := some "done", work_dir := "w",
    perf_time := .none, seq_time := .none, report_present := false,
    copied := true }

/-- An `omp` task with solution budget 10 and copy coefficient `1/2`. -/
def disabledCexTask : ThreadTask :=
  { name := "omp", display_name := "omp", s_points := 10, a_points := 0,
    r_points := 0, deadline := {}, copy_coeff := 1/2, eff_num_proc := 1,
    efficiency_scale := [] }

/-- A `disabled` submission that is NOT flagged as copied. -/
def disabledNotCopiedSub : ThreadSubmission :=
  { task_name := "omp", status := some "disabled", work_dir := "w",
    perf_time := .none, seq_time := .none, report_present := false,
    copied := false }

/-- A submission whose parallel time is the sentinel string `"?"`. -/
def sentinelTimeSub : ThreadSubmission :=
  { task_name := "omp", status := some "done", work_dir := "w",
    perf_time := .str "?", seq_time := .num 8, report_present := false,
    copied := false }

/-- A process task: mpi S=5/A=10, seq S=5, report 3, scale `[(0.5, 1.0)]`. -/
def mpiCexTask : ProcessTask :=
  { name := "mpi_task_1", display_name := "Task 1",
    mpi_points := { S := 5, A := 10 }, seq_points := { S := 5, A := 0 },
    r_points := 3, variants_max := 1, deadline := {}, copy_coeff := 0,
    eff_num_proc := 1, efficiency_scale := [(1/2, 1)] }

/-- A process submission whose mpi side was never attempted (status `None`)
but for which stale benchmark data still reports an mpi time. -/
def mpiAbsentTimedSub : ProcessSubmission :=
  { task_number := 1, seq_status := some "done", mpi_status := Option.none,
    work_dir := some "w", seq_time := .num 8, mpi_time := .num 1,
    report_present := false, seq_copied := false, mpi_copied := false }

/-- A process submission with neither side attempted and no data at all. -/
def bothMissingSub : ProcessSubmission :=
  { task_number := 1, seq_status := Option.none, mpi_status := Option.none,
    work_dir := Option.none, seq_time := .none, mpi_time := .none,
    report_present := false, seq_copied := false, mpi_copied := false }

/-- The rational 5/2 in explicit normal form (so it evaluates in the
kernel). -/
def fiveHalves : ℚ := Rat.mk' 5 2 (by norm_num) (by norm_num [Nat.Coprime])

/-- A process-track folder whose `info.json` carries the non-integral
JSON number 2.5 as `task_number`. -/
def halfTaskNumberFolder : Folder :=
  { work_dir := "wd",
    info := { last_name := "A", group_number := "g1",
              task_number := some (.float fiveHalves) } }

/-- The student row produced from `halfTaskNumberFolder`: the fractional
task number 2.5 has been silently truncated to task 2. -/
def halfResultStudent : PStudent :=
  { last_name := "A", first_name := "", middle_name := "",
    group_number := "G1",
    process_submissions :=
      [("mpi_task_2", make_process_submission 2 halfTaskNumberFolder)] }

/-- A process-track folder whose `task_number` is the non-numeric string
`"x"`. -/
def badStringTaskNumberFolder : Folder :=
  { work_dir := "wd",
    info := { last_name := "A", task_number := some (.str "x") } }

/-- A process-track folder whose student metadata is entirely empty. -/
def emptyInfoFolder : Folder :=
  { work_dir := "wd2", info := {} }

/-- The student row produced from `emptyInfoFolder`: an all-empty identity,
keyed `"|||"`. -/
def emptyResultStudent : PStudent :=
  { last_name := "", first_name := "", middle_name := "", group_number := "",
    process_submissions :=
      [("mpi_task_1", make_process_submission 1 emptyInfoFolder)] }

-- ---------------------------------------------------------------------------
-- Helper lemmas about rounding
-- ---------------------------------------------------------------------------

theorem rndHE_intCast (n : ℤ) : rndHE (n : ℚ) = n := by
  unfold rndHE
  simp

theorem le_rndHE (q : ℚ) : ⌊q⌋ ≤ rndHE q := by
  unfold rndHE
  split_ifs <;> omega

theorem rndHE_le_floor_add_one (q : ℚ) : rndHE q ≤ ⌊q⌋ + 1 := by
  unfold rndHE
  split_ifs <;> omega

theorem rndHE_mono {x y : ℚ} (h : x ≤ y) : rndHE x ≤ rndHE y := by
  rcases lt_or_eq_of_le (Int.floor_le_floor h : ⌊x⌋ ≤ ⌊y⌋) with hf | hf
  · calc rndHE x ≤ ⌊x⌋ + 1 := rndHE_le_floor_add_one x
      _ ≤ ⌊y⌋ := by omega
      _ ≤ rndHE y := le_rndHE y
  · have hr : x - (⌊x⌋ : ℚ) ≤ y - (⌊y⌋ : ℚ) := by
      rw [← hf]
      exact sub_le_sub_right h _
    unfold rndHE
    rw [← hf]
    split_ifs <;> first | omega | (exfalso; rw [← hf] at hr; linarith)

theorem round2_hundredth (k : ℤ) : round2 ((k : ℚ) / 100) = (k : ℚ) / 100 := by
  unfold round2
  rw [div_mul_cancel₀ _ (by norm_num : (100 : ℚ) ≠ 0), rndHE_intCast]

theorem round2_zero : round2 0 = 0 := by
  have := round2_hundredth 0
  simpa using this

theorem round2_intCast (n : ℤ) : round2 (n : ℚ) = (n : ℚ) := by
  have h : ((n : ℚ)) = ((100 * n : ℤ) : ℚ) / 100 := by push_cast; ring
  rw [h, round2_hundredth]

theorem round2_nonneg {q : ℚ} (h : 0 ≤ q) : 0 ≤ round2 q := by
  unfold round2
  have h1 : rndHE 0 ≤ rndHE (q * 100) := rndHE_mono (by nlinarith)
  have h0 : rndHE 0 = 0 := by simpa using rndHE_intCast 0
  rw [h0] at h1
  positivity

theorem round2_le_intCast {q : ℚ} {n : ℤ} (h : q ≤ (n : ℚ)) :
    round2 q ≤ (n : ℚ) := by
  have h1 : rndHE (q * 100) ≤ rndHE ((n : ℚ) * 100) :=
    rndHE_mono (by nlinarith)
  have h2 : ((n : ℚ) * 100) = ((n * 100 : ℤ) : ℚ) := by push_cast; ring
  rw [h2, rndHE_intCast] at h1
  unfold round2
  rw [div_le_iff₀ (by norm_num : (0:ℚ) < 100)]
  calc ((rndHE (q * 100) : ℤ) : ℚ) ≤ ((n * 100 : ℤ) : ℚ) := by exact_mod_cast h1
    _ = (n : ℚ) * 100 := by push_cast; ring

-- ---------------------------------------------------------------------------
-- Characterization lemmas for the deadline penalty
-- ---------------------------------------------------------------------------

theorem deadline_penalty_of_ne_done {git : String → Option ℤ}
    {due : Option ℤ} {path : Option String} {status : Option String}
    (h : status ≠ some "done") :
    deadline_penalty git due path status = 0 := by
  unfold deadline_penalty
  split
  · simp_all
  · rfl

theorem deadline_penalty_done (git : String → Option ℤ) (d : ℤ) (p : String) :
    deadline_penalty git (some d) (some p) (some "done") =
      match git p with
      | Option.none => 0
      | some commit =>
          if 0 < (commit - d).fdiv 86400 then
            ((-(commit - d).fdiv 86400 : ℤ) : ℚ)
          else 0 := by
  unfold deadline_penalty
  rfl

-- ---------------------------------------------------------------------------
-- C1
-- ---------------------------------------------------------------------------

/-- C1: scoring a student who has no submission record returns the all-zero
score on both tracks: `ThreadTask.calculate_score` with a `None` submission
yields a `TaskScore` whose solution, performance, deadline-penalty,
copy-penalty and report components are all 0 (total 0), and
`ProcessTask.calculate_score` with a `None` submission yields a
`ProcessScore` with all-zero seq and mpi sub-scores and 0 report points
(total 0). -/
theorem c1_no_submission_scores_zero (t : ThreadTask) (pt : ProcessTask)
    (git : String → Option ℤ) :
    ((t.calculate_score git Option.none).solution_points = 0
      ∧ (t.calculate_score git Option.none).performance_points = 0
      ∧ (t.calculate_score git Option.none).deadline_penalty = 0
      ∧ (t.calculate_score git Option.none).copy_penalty = 0
      ∧ (t.calculate_score git Option.none).report_points = 0
      ∧ (t.calculate_score git Option.none).total = 0)
    ∧ ((pt.calculate_score git Option.none).seq = ({} : TaskScore)
      ∧ (pt.calculate_score git Option.none).mpi = ({} : TaskScore)
      ∧ ({} : TaskScore).solution_points = 0
      ∧ ({} : TaskScore).performance_points = 0
      ∧ ({} : TaskScore).deadline_penalty = 0
      ∧ ({} : TaskScore).copy_penalty = 0
      ∧ ({} : TaskScore).report_points = 0
      ∧ (pt.calculate_score git Option.none).report_points = 0
      ∧ (pt.calculate_score git Option.none).total = 0) := by
  have ht : t.calculate_score git Option.none = {} := rfl
  have hp : pt.calculate_score git Option.none =
      { seq := {}, mpi := {}, report_points := 0 } := rfl
  have htot : ({} : TaskScore).total = 0 := by
    simp [TaskScore.total, round2_zero]
  refine ⟨⟨?_, ?_, ?_, ?_, ?_, ?_⟩, ?_, ?_, ?_, ?_, ?_, ?_, ?_, ?_, ?_⟩ <;>
    simp [ht, hp, htot, ProcessScore.total, round2_zero]

-- ---------------------------------------------------------------------------
-- C3
-- ---------------------------------------------------------------------------

/-- C3: the deadline penalty is 0 whenever the status is not exactly
`"done"`, or the task has no due instant, or the path is absent, or the
path's last commit time is unknown, and 0 for on-time or early commits;
otherwise it is minus the number of whole days late (floor of the delta);
commits exactly 1 second, 1 day, and 1 day + 23 hours after the due instant
yield penalties 0, −1 and −1. -/
theorem c3_deadline_penalty (git : String → Option ℤ) (due : Option ℤ)
    (path : Option String) (status : Option String) :
    (status ≠ some "done" → deadline_penalty git due path status = 0)
  ∧ (due = Option.none → deadline_penalty git due path status = 0)
  ∧ (path = Option.none → deadline_penalty git due path status = 0)
  ∧ (∀ p, path = some p → git p = Option.none →
        deadline_penalty git due path status = 0)
  ∧ (∀ p d c, path = some p → due = some d → git p = some c → c ≤ d →
        deadline_penalty git due path status = 0)
  ∧ (∀ p d c, path = some p → due = some d → git p = some c →
        status = some "done" → 0 < (c - d).fdiv 86400 →
        deadline_penalty git due path status = ((-(c - d).fdiv 86400 : ℤ) : ℚ))
  ∧ (∀ p d c, path = some p → due = some d → git p = some c →
        status = some "done" →
        (c = d + 1 → deadline_penalty git due path status = 0)
        ∧ (c = d + 86400 → deadline_penalty git due path status = -1)
        ∧ (c = d + 169200 → deadline_penalty git due path status = -1)) := by
  refine ⟨fun h => deadline_penalty_of_ne_done h, ?_, ?_, ?_, ?_, ?_, ?_⟩
  · rintro rfl
    unfold deadline_penalty
    split <;> simp_all
  · rintro rfl
    unfold deadline_penalty
    split <;> simp_all
  · rintro p rfl hg
    by_cases hs : status = some "done"
    · subst hs
      cases due with
      | none =>
          unfold deadline_penalty
          split <;> simp_all
      | some d =>
          rw [deadline_penalty_done, hg]
    · exact deadline_penalty_of_ne_done hs
  · rintro p d c rfl rfl hg hle
    by_cases hs : status = some "done"
    · subst hs
      rw [deadline_penalty_done, hg]
      have hdiv : (c - d).fdiv 86400 ≤ 0 := by
        rw [Int.fdiv_eq_ediv _ (by norm_num : (0:ℤ) ≤ 86400)]
        omega
      simp [show ¬ (0 < (c - d).fdiv 86400) from by omega]
    · exact deadline_penalty_of_ne_done hs
  · rintro p d c rfl rfl hg rfl hpos
    rw [deadline_penalty_done, hg]
    simp [hpos]
  · rintro p d c rfl rfl hg rfl
    have h1 : ((d + 1) - d).fdiv 86400 = 0 := by
      rw [show (d + 1) - d = (1:ℤ) from by omega]; decide
    have h2 : ((d + 86400) - d).fdiv 86400 = 1 := by
      rw [show (d + 86400) - d = (86400:ℤ) from by omega]; decide
    have h3 : ((d + 169200) - d).fdiv 86400 = 1 := by
      rw [show (d + 169200) - d = (169200:ℤ) from by omega]; decide
    refine ⟨?_, ?_, ?_⟩ <;> rintro rfl <;> rw [deadline_penalty_done, hg]
    · simp [h1]
    · simp [h2]
    · simp [h3]

/-- C3 witness: a commit exactly one day after the due instant, with status
`"done"`, yields penalty −1. -/
theorem c3_deadline_penalty_witness :
    deadline_penalty (fun _ => some 86400) (some 0) (some "p")
      (some "done") = -1 := by
  have h := (c3_deadline_penalty (fun _ => some 86400) (some 0) (some "p")
    (some "done")).2.2.2.2.2.2 "p" 0 86400 rfl rfl rfl rfl
  exact h.2.1 (by norm_num)

-- ---------------------------------------------------------------------------
-- Field characterizations of ThreadTask.calculate_score
-- ---------------------------------------------------------------------------

theorem thread_solution_points (t : ThreadTask) (git : String → Option ℤ)
    (sub : ThreadSubmission) :
    (t.calculate_score git (some sub)).solution_points =
      if sub.status = some "done" ∨ sub.status = some "disabled" then
        (t.s_points : ℚ)
      else 0 := by
  by_cases h : t.name = "seq" <;> simp [ThreadTask.calculate_score, h]

theorem thread_solution_class (t : ThreadTask) (git : String → Option ℤ)
    (sub : ThreadSubmission) :
    (t.calculate_score git (some sub)).solution_class =
      if sub.status = some "done" then "cell-success"
      else if sub.status = some "disabled" then "cell-muted" else "" := by
  by_cases h : t.name = "seq" <;> simp [ThreadTask.calculate_score, h]

theorem thread_deadline_penalty (t : ThreadTask) (git : String → Option ℤ)
    (sub : ThreadSubmission) :
    (t.calculate_score git (some sub)).deadline_penalty =
      deadline_penalty git t.deadline.due (some sub.impl_path) sub.status := by
  by_cases h : t.name = "seq" <;> simp [ThreadTask.calculate_score, h]

theorem thread_copy_penalty (t : ThreadTask) (git : String → Option ℤ)
    (sub : ThreadSubmission) :
    (t.calculate_score git (some sub)).copy_penalty =
      if sub.copied then
        -t.copy_coeff * (t.calculate_score git (some sub)).solution_points
      else 0 := by
  rw [thread_solution_points]
  by_cases h : t.name = "seq" <;> simp [ThreadTask.calculate_score, h]

theorem thread_copy_class (t : ThreadTask) (git : String → Option ℤ)
    (sub : ThreadSubmission) :
    (t.calculate_score git (some sub)).copy_class =
      if sub.copied ∨ sub.status = some "disabled" then "cell-warning"
      else "" := by
  by_cases h : t.name = "seq" <;> simp [ThreadTask.calculate_score, h]

theorem thread_report_points (t : ThreadTask) (git : String → Option ℤ)
    (sub : ThreadSubmission) :
    (t.calculate_score git (some sub)).report_points =
      if sub.report_present then (t.r_points : ℚ) else 0 := by
  by_cases h : t.name = "seq" <;> simp [ThreadTask.calculate_score, h]

theorem thread_perf_of_seq (t : ThreadTask) (git : String → Option ℤ)
    (sub : ThreadSubmission) (h : t.name = "seq") :
    (t.calculate_score git (some sub)).performance_points = 0
    ∧ (t.calculate_score git (some sub)).performance_display = "—"
    ∧ (t.calculate_score git (some sub)).acceleration = "—"
    ∧ (t.calculate_score git (some sub)).efficiency = "—" := by
  simp [ThreadTask.calculate_score, h]

theorem thread_perf_of_ne_seq (t : ThreadTask) (git : String → Option ℤ)
    (sub : ThreadSubmission) (h : t.name ≠ "seq") :
    (t.calculate_score git (some sub)).performance_points =
      efficiency_to_points t.efficiency_scale
        (performance_metrics t.eff_num_proc sub.perf_time sub.seq_time).1
        t.a_points
    ∧ (t.calculate_score git (some sub)).performance_display =
        (if (performance_metrics t.eff_num_proc sub.perf_time sub.seq_time).1.isSome
         then fmt2 ((t.calculate_score git (some sub)).performance_points)
         else "—")
    ∧ (t.calculate_score git (some sub)).acceleration =
        (performance_metrics t.eff_num_proc sub.perf_time sub.seq_time).2.1
    ∧ (t.calculate_score git (some sub)).efficiency =
        (performance_metrics t.eff_num_proc sub.perf_time sub.seq_time).2.2 := by
  simp [ThreadTask.calculate_score, h]

-- ---------------------------------------------------------------------------
-- C2
-- ---------------------------------------------------------------------------

/-- C2: for a thread task not named `"seq"`, with valid positive parallel and
seq times, the performance points equal `performance_points_max × percent`
(rounded to 2 decimals) for the first `(threshold, percent)` pair of
`efficiency_scale`, scanned in order, whose threshold the efficiency
`(seq/parallel)/eff_num_proc` meets or exceeds, and 0 when no pair matches;
for the task named `"seq"` the performance points are 0 and the display is
`"—"`. -/
theorem c2_performance_points (t : ThreadTask) (git : String → Option ℤ)
    (sub : ThreadSubmission) (p s : ℚ)
    (hp : sub.perf_time = .num p) (hs : sub.seq_time = .num s)
    (hpp : 0 < p) (hsp : 0 < s)
    (hn : 1 ≤ t.eff_num_proc) (ha : 0 ≤ t.a_points) :
    (t.name ≠ "seq" →
      (t.calculate_score git (some sub)).performance_points =
        (match t.efficiency_scale.find?
            (fun tp => decide (tp.1 ≤ (s / p) / (t.eff_num_proc : ℚ))) with
         | some tp => round2 ((t.a_points : ℚ) * tp.2)
         | Option.none => 0))
    ∧ (t.name = "seq" →
      (t.calculate_score git (some sub)).performance_points = 0
      ∧ (t.calculate_score git (some sub)).performance_display = "—") := by
  constructor
  · intro hne
    have hm : (performance_metrics t.eff_num_proc sub.perf_time sub.seq_time).1 =
        some ((s / p) / (t.eff_num_proc : ℚ)) := by
      rw [hp, hs]
      unfold performance_metrics
      rw [show max t.eff_num_proc 1 = t.eff_num_proc from max_eq_left hn]
      simp [pyFloat, isInvalidVal, hsp.not_le, hpp.not_le]
    rw [(thread_perf_of_ne_seq t git sub hne).1, hm]
    simp only [efficiency_to_points]
    rcases lt_or_eq_of_le ha with h0 | h0
    · rw [if_neg (by omega)]
    · rw [if_pos (by omega)]
      cases hfind : t.efficiency_scale.find?
          (fun tp => decide (tp.1 ≤ (s / p) / (t.eff_num_proc : ℚ))) with
      | none => rfl
      | some tp =>
          rw [← h0]
          simp [round2_zero]
  · intro hseq
    exact ⟨(thread_perf_of_seq t git sub hseq).1,
      (thread_perf_of_seq t git sub hseq).2.1⟩

/-- C2 witness: the spec's worked scenario — `omp` task, performance budget
10, scale `[(0.5, 1.0), (0.25, 0.5)]`, 4 procs, seq time 8 s, omp time 2 s:
speedup 4, efficiency 1 ≥ 0.5, so 10 performance points. -/
theorem c2_performance_points_witness :
    (ompScenarioTask.calculate_score noGit (some ompScenarioSub)).performance_points
      = 10 := by
  have h := (c2_performance_points ompScenarioTask noGit ompScenarioSub 2 8
    rfl rfl (by norm_num) (by norm_num) (by norm_num [ompScenarioTask])
    (by norm_num [ompScenarioTask])).1 (by decide)
  rw [h]
  simp only [ompScenarioTask]
  rw [show List.find? (fun tp => decide (tp.1 ≤ (8:ℚ) / 2 / (((4:ℤ)):ℚ)))
      [((1:ℚ)/2, (1:ℚ)), (1/4, 1/2)] = some (1/2, 1) from by
    norm_num [List.find?]]
  show round2 (((10:ℤ):ℚ) * 1) = 10
  rw [mul_one, round2_intCast]
  norm_num

-- ---------------------------------------------------------------------------
-- C4
-- ---------------------------------------------------------------------------

/-- C4 counterexample: with copy coefficient 1/3 and solution budget 1, a
copied `done` submission has component sum `1 − 1/3 = 2/3`, but `total()`
returns `round(2/3, 2) = 0.67 ≠ 2/3` — `total()` is not exactly the sum of
the four components. -/
theorem c4_total_equals_sum_cex :
    (thirdCoeffTask.calculate_score noGit (some copiedDoneSub)).total ≠
      (thirdCoeffTask.calculate_score noGit (some copiedDoneSub)).solution_points
      + (thirdCoeffTask.calculate_score noGit (some copiedDoneSub)).performance_points
      + (thirdCoeffTask.calculate_score noGit (some copiedDoneSub)).report_points
      + (thirdCoeffTask.calculate_score noGit (some copiedDoneSub)).copy_penalty := by
  have h1 : (thirdCoeffTask.calculate_score noGit (some copiedDoneSub)).solution_points
      = 1 := by
    rw [thread_solution_points]
    norm_num [copiedDoneSub, thirdCoeffTask]
  have h2 : (thirdCoeffTask.calculate_score noGit (some copiedDoneSub)).performance_points
      = 0 :=
    (thread_perf_of_seq thirdCoeffTask noGit copiedDoneSub rfl).1
  have h3 : (thirdCoeffTask.calculate_score noGit (some copiedDoneSub)).report_points
      = 0 := by
    rw [thread_report_points]
    norm_num [copiedDoneSub]
  have h4 : (thirdCoeffTask.calculate_score noGit (some copiedDoneSub)).copy_penalty
      = -(1/3) := by
    rw [thread_copy_penalty, h1]
    norm_num [copiedDoneSub, thirdCoeffTask]
  unfold TaskScore.total
  rw [h1, h2, h3, h4]
  have hr : round2 ((1:ℚ) + 0 + 0 + -(1/3)) = 67/100 := by
    rw [show (1:ℚ) + 0 + 0 + -(1/3) = 2/3 from by norm_num]
    unfold round2
    norm_num [rndHE, Int.floor_eq_iff]
  rw [hr]
  norm_num

/-- C4 (amended): `total()` equals the 2-decimal rounding of
solution + performance + report + copy penalty; the deadline penalty is
never a summand (the total is invariant under changing it); the rounded
total is clipped nowhere — with copy coefficient 2 a computed total of −1
is returned as-is. -/
theorem c4_total_amended (t : ThreadTask) (git : String → Option ℤ)
    (sub : Option ThreadSubmission) (ts : TaskScore) (d : ℚ) :
    ((t.calculate_score git sub).total =
      round2 ((t.calculate_score git sub).solution_points
        + (t.calculate_score git sub).performance_points
        + (t.calculate_score git sub).report_points
        + (t.calculate_score git sub).copy_penalty))
    ∧ ({ ts with deadline_penalty := d } : TaskScore).total = ts.total
    ∧ (doubleCoeffTask.calculate_score noGit (some copiedDoneSub)).total = -1 := by
  refine ⟨rfl, rfl, ?_⟩
  have h1 : (doubleCoeffTask.calculate_score noGit (some copiedDoneSub)).solution_points
      = 1 := by
    rw [thread_solution_points]
    norm_num [copiedDoneSub, doubleCoeffTask]
  have h2 : (doubleCoeffTask.calculate_score noGit (some copiedDoneSub)).performance_points
      = 0 :=
    (thread_perf_of_seq doubleCoeffTask noGit copiedDoneSub rfl).1
  have h3 : (doubleCoeffTask.calculate_score noGit (some copiedDoneSub)).report_points
      = 0 := by
    rw [thread_report_points]
    norm_num [copiedDoneSub]
  have h4 : (doubleCoeffTask.calculate_score noGit (some copiedDoneSub)).copy_penalty
      = -2 := by
    rw [thread_copy_penalty, h1]
    norm_num [copiedDoneSub, doubleCoeffTask]
  unfold TaskScore.total
  rw [h1, h2, h3, h4]
  rw [show (1:ℚ) + 0 + 0 + -2 = ((-1 : ℤ) : ℚ) from by norm_num, round2_intCast]
  norm_num

-- ---------------------------------------------------------------------------
-- C5
-- ---------------------------------------------------------------------------

/-- C5 counterexample: a `disabled` submission that is NOT flagged as copied
still gets the plagiarism display class `"cell-warning"` — `disabled` forces
the class on rather than suppressing it. -/
theorem c5_disabled_copy_class_cex :
    (disabledCexTask.calculate_score noGit (some disabledNotCopiedSub)).copy_class
      = "cell-warning"
    ∧ disabledNotCopiedSub.copied = false := by
  refine ⟨?_, rfl⟩
  rw [thread_copy_class]
  norm_num [disabledNotCopiedSub]

/-- C5 (amended): `disabled` yields exactly the same solution points as
`done` (the full solution budget), with display class `"cell-muted"` vs
`"cell-success"`, and `disabled` FORCES the plagiarism display class
`"cell-warning"` regardless of the copy flag, while the copy-penalty
arithmetic stays identical to that of `done`. -/
theorem c5_disabled_amended (t : ThreadTask) (git : String → Option ℤ)
    (sub : ThreadSubmission) :
    (t.calculate_score git (some { sub with status := some "disabled" })).solution_points
      = (t.calculate_score git (some { sub with status := some "done" })).solution_points
    ∧ (t.calculate_score git (some { sub with status := some "disabled" })).solution_points
        = (t.s_points : ℚ)
    ∧ (t.calculate_score git (some { sub with status := some "disabled" })).solution_class
        = "cell-muted"
    ∧ (t.calculate_score git (some { sub with status := some "done" })).solution_class
        = "cell-success"
    ∧ (t.calculate_score git (some { sub with status := some "disabled" })).copy_class
        = "cell-warning"
    ∧ (t.calculate_score git (some { sub with status := some "disabled" })).copy_penalty
        = (t.calculate_score git (some { sub with status := some "done" })).copy_penalty := by
  have hdis : (t.calculate_score git (some { sub with status := some "disabled" })).solution_points
      = (t.s_points : ℚ) := by
    rw [thread_solution_points]
    simp
  have hdon : (t.calculate_score git (some { sub with status := some "done" })).solution_points
      = (t.s_points : ℚ) := by
    rw [thread_solution_points]
    simp
  refine ⟨by rw [hdis, hdon], hdis, ?_, ?_, ?_, ?_⟩
  · rw [thread_solution_class]
    simp
  · rw [thread_solution_class]
    simp
  · rw [thread_copy_class]
    simp
  · rw [thread_copy_penalty, thread_copy_penalty, hdis, hdon]

-- ---------------------------------------------------------------------------
-- C7
-- ---------------------------------------------------------------------------

theorem performance_metrics_bad (n : ℤ) (pv sv : PyVal)
    (hbad : timeBad pv = true ∨ timeBad sv = true) :
    performance_metrics n pv sv = (Option.none, "—", "—") := by
  unfold performance_metrics
  by_cases hinv : (isInvalidVal pv || isInvalidVal sv) = true
  · rw [if_pos hinv]
  · rw [if_neg hinv]
    have hinv' : isInvalidVal pv = false ∧ isInvalidVal sv = false := by
      constructor <;> (revert hinv; cases isInvalidVal pv <;>
        cases isInvalidVal sv <;> simp)
    rcases hbad with hb | hb
    · unfold timeBad at hb
      rw [hinv'.1, Bool.false_or] at hb
      cases hfp : pyFloat pv with
      | none => cases pyFloat sv <;> rfl
      | some q =>
          rw [hfp] at hb
          simp only [decide_eq_true_eq] at hb
          cases hfs : pyFloat sv with
          | none => rfl
          | some s => simp [Or.inr hb]
    · unfold timeBad at hb
      rw [hinv'.2, Bool.false_or] at hb
      cases hfs : pyFloat sv with
      | none => cases pyFloat pv <;> rfl
      | some s =>
          rw [hfs] at hb
          simp only [decide_eq_true_eq] at hb
          cases hfp : pyFloat pv with
          | none => rfl
          | some q => simp [Or.inl hb]

/-- C7: per-cell score computation is total by construction, and missing or
malformed timing data (a missing value, a sentinel such as `"?"` or
`"N/A"`, a string `float()` rejects, or a non-positive number) leaves the
efficiency undefined, displays `"—"` for the performance metrics, and
contributes 0 performance points instead of an error. -/
theorem c7_malformed_times_neutral (t : ThreadTask) (git : String → Option ℤ)
    (sub : ThreadSubmission)
    (hbad : timeBad sub.perf_time = true ∨ timeBad sub.seq_time = true) :
    performance_metrics t.eff_num_proc sub.perf_time sub.seq_time
      = (Option.none, "—", "—")
    ∧ (t.calculate_score git (some sub)).performance_points = 0
    ∧ (t.calculate_score git (some sub)).performance_display = "—"
    ∧ (t.calculate_score git (some sub)).acceleration = "—"
    ∧ (t.calculate_score git (some sub)).efficiency = "—" := by
  have hm := performance_metrics_bad t.eff_num_proc sub.perf_time sub.seq_time hbad
  refine ⟨hm, ?_⟩
  by_cases h : t.name = "seq"
  · have hs := thread_perf_of_seq t git sub h
    exact ⟨hs.1, hs.2.1, hs.2.2.1, hs.2.2.2⟩
  · have hs := thread_perf_of_ne_seq t git sub h
    refine ⟨?_, ?_, ?_, ?_⟩
    · rw [hs.1, hm]
      rfl
    · rw [hs.2.1, hm]
      rfl
    · rw [hs.2.2.1, hm]
    · rw [hs.2.2.2, hm]

/-- C7 witness: a parallel time recorded as the sentinel string `"?"` (with
a valid seq time of 8 s) scores 0 performance points and displays `"—"`. -/
theorem c7_malformed_times_neutral_witness :
    (ompScenarioTask.calculate_score noGit (some sentinelTimeSub)).performance_points
        = 0
    ∧ (ompScenarioTask.calculate_score noGit (some sentinelTimeSub)).performance_display
        = "—" := by
  have h := c7_malformed_times_neutral ompScenarioTask noGit sentinelTimeSub
    (Or.inl (by decide))
  exact ⟨h.2.1, h.2.2.1⟩

-- ---------------------------------------------------------------------------
-- C10
-- ---------------------------------------------------------------------------

theorem deadline_penalty_nonpos (git : String → Option ℤ) (due : Option ℤ)
    (path : Option String) (status : Option String) :
    deadline_penalty git due path status ≤ 0 := by
  unfold deadline_penalty
  split
  · rename_i d p
    split
    · exact le_refl 0
    · rename_i commit hcm
      dsimp only
      split_ifs with h
      · push_cast
        have : (0:ℚ) < ((commit - d).fdiv 86400 : ℚ) := by exact_mod_cast h
        linarith
      · exact le_refl 0
  · exact le_refl 0

theorem efficiency_to_points_bounds (scale : List (ℚ × ℚ)) (eff : Option ℚ)
    (mp : ℤ) (hmp : 0 ≤ mp)
    (hscale : ∀ tp ∈ scale, 0 ≤ tp.2 ∧ tp.2 ≤ 1) :
    0 ≤ efficiency_to_points scale eff mp
    ∧ efficiency_to_points scale eff mp ≤ (mp : ℚ) := by
  have hmpq : (0:ℚ) ≤ (mp : ℚ) := by exact_mod_cast hmp
  cases eff with
  | none =>
      simp only [efficiency_to_points]
      exact ⟨le_refl (0:ℚ), hmpq⟩
  | some e =>
      simp only [efficiency_to_points]
      by_cases h : mp ≤ 0
      · rw [if_pos h]
        exact ⟨le_refl (0:ℚ), hmpq⟩
      · rw [if_neg h]
        cases hfind : scale.find? (fun tp => decide (tp.1 ≤ e)) with
        | none => exact ⟨le_refl (0:ℚ), hmpq⟩
        | some tp =>
            obtain ⟨h0, h1⟩ := hscale tp (List.mem_of_find?_eq_some hfind)
            refine ⟨round2_nonneg (mul_nonneg hmpq h0), ?_⟩
            exact round2_le_intCast (mul_le_of_le_one_right hmpq h1)

/-- C10: for every submission and thread-task configuration with
non-negative copy coefficient and point budgets and every efficiency-scale
percent in `[0, 1]`, the computed score satisfies: solution points are 0 or
the full solution budget, performance points lie in `[0, performance
budget]`, report points are 0 or the full report budget, and the deadline
and copy penalties are non-positive. -/
theorem c10_score_invariants (t : ThreadTask) (git : String → Option ℤ)
    (sub : Option ThreadSubmission)
    (hc : 0 ≤ t.copy_coeff) (hs : 0 ≤ t.s_points) (ha : 0 ≤ t.a_points)
    (hr : 0 ≤ t.r_points)
    (hscale : ∀ tp ∈ t.efficiency_scale, 0 ≤ tp.2 ∧ tp.2 ≤ 1) :
    ((t.calculate_score git sub).solution_points = 0
      ∨ (t.calculate_score git sub).solution_points = (t.s_points : ℚ))
    ∧ 0 ≤ (t.calculate_score git sub).performance_points
    ∧ (t.calculate_score git sub).performance_points ≤ (t.a_points : ℚ)
    ∧ ((t.calculate_score git sub).report_points = 0
      ∨ (t.calculate_score git sub).report_points = (t.r_points : ℚ))
    ∧ (t.calculate_score git sub).deadline_penalty ≤ 0
    ∧ (t.calculate_score git sub).copy_penalty ≤ 0 := by
  have haq : (0:ℚ) ≤ (t.a_points : ℚ) := by exact_mod_cast ha
  cases sub with
  | none =>
      have h : t.calculate_score git Option.none = {} := rfl
      rw [h]
      exact ⟨Or.inl rfl, le_refl (0:ℚ), haq, Or.inl rfl, le_refl (0:ℚ),
        le_refl (0:ℚ)⟩
  | some sub =>
      have hsol : (t.calculate_score git (some sub)).solution_points = 0
          ∨ (t.calculate_score git (some sub)).solution_points = (t.s_points : ℚ) := by
        rw [thread_solution_points]
        split_ifs
        · exact Or.inr rfl
        · exact Or.inl rfl
      have hsolnn : 0 ≤ (t.calculate_score git (some sub)).solution_points := by
        rcases hsol with h | h <;> rw [h]
        exact_mod_cast hs
      have hperf : 0 ≤ (t.calculate_score git (some sub)).performance_points
          ∧ (t.calculate_score git (some sub)).performance_points ≤ (t.a_points : ℚ) := by
        by_cases hn : t.name = "seq"
        · rw [(thread_perf_of_seq t git sub hn).1]
          exact ⟨le_refl 0, haq⟩
        · rw [(thread_perf_of_ne_seq t git sub hn).1]
          exact efficiency_to_points_bounds t.efficiency_scale _ t.a_points ha hscale
      refine ⟨hsol, hperf.1, hperf.2, ?_, ?_, ?_⟩
      · rw [thread_report_points]
        split_ifs
        · exact Or.inr rfl
        · exact Or.inl rfl
      · rw [thread_deadline_penalty]
        exact deadline_penalty_nonpos _ _ _ _
      · rw [thread_copy_penalty]
        split_ifs
        · have : 0 ≤ t.copy_coeff *
              (t.calculate_score git (some sub)).solution_points :=
            mul_nonneg hc hsolnn
          linarith
        · exact le_refl (0:ℚ)

/-- C10 witness: the worked `omp` scenario satisfies the invariants; in
particular its performance points are non-negative. -/
theorem c10_score_invariants_witness :
    0 ≤ (ompScenarioTask.calculate_score noGit (some ompScenarioSub)).performance_points := by
  exact (c10_score_invariants ompScenarioTask noGit (some ompScenarioSub)
    (by norm_num [ompScenarioTask]) (by norm_num [ompScenarioTask])
    (by norm_num [ompScenarioTask]) (by norm_num [ompScenarioTask])
    (by
      intro tp htp
      simp only [ompScenarioTask, List.mem_cons, List.not_mem_nil,
        or_false] at htp
      rcases htp with rfl | rfl <;> norm_num)).2.1

-- ---------------------------------------------------------------------------
-- C6
-- ---------------------------------------------------------------------------

theorem taskScore_total_hundredth (ts : TaskScore) :
    ∃ k : ℤ, ts.total = (k : ℚ) / 100 := by
  unfold TaskScore.total round2
  exact ⟨_, rfl⟩

theorem proc_calc_seq (pt : ProcessTask) (git : String → Option ℤ)
    (sub : ProcessSubmission) :
    (pt.calculate_score git (some sub)).seq =
      { solution_points :=
          if sub.seq_status = some "done" ∨ sub.seq_status = some "disabled"
          then (pt.seq_points.S : ℚ) else 0
        solution_class :=
          if sub.seq_status = some "done" then "cell-success"
          else if sub.seq_status = some "disabled" then "cell-muted" else ""
        deadline_penalty :=
          deadline_penalty git pt.deadline.due (sub.impl_path "seq")
            sub.seq_status
        copy_penalty :=
          if sub.seq_copied then
            -pt.copy_coeff *
              (if sub.seq_status = some "done" ∨ sub.seq_status = some "disabled"
               then (pt.seq_points.S : ℚ) else 0)
          else 0
        copy_class :=
          if sub.seq_copied ∨ sub.seq_status = some "disabled"
          then "cell-warning" else "" } := rfl

theorem proc_calc_mpi (pt : ProcessTask) (git : String → Option ℤ)
    (sub : ProcessSubmission) :
    (pt.calculate_score git (some sub)).mpi =
      { solution_points :=
          if sub.mpi_status = some "done" ∨ sub.mpi_status = some "disabled"
          then (pt.mpi_points.S : ℚ) else 0
        solution_class :=
          if sub.mpi_status = some "done" then "cell-success"
          else if sub.mpi_status = some "disabled" then "cell-muted" else ""
        performance_points :=
          efficiency_to_points pt.efficiency_scale
            (performance_metrics pt.eff_num_proc sub.mpi_time sub.seq_time).1
            pt.mpi_points.A
        performance_display :=
          if (performance_metrics pt.eff_num_proc sub.mpi_time sub.seq_time).1.isSome
          then fmt2 (efficiency_to_points pt.efficiency_scale
            (performance_metrics pt.eff_num_proc sub.mpi_time sub.seq_time).1
            pt.mpi_points.A)
          else "—"
        acceleration :=
          (performance_metrics pt.eff_num_proc sub.mpi_time sub.seq_time).2.1
        efficiency :=
          (performance_metrics pt.eff_num_proc sub.mpi_time sub.seq_time).2.2
        deadline_penalty :=
          deadline_penalty git pt.deadline.due (sub.impl_path "mpi")
            sub.mpi_status
        copy_penalty :=
          if sub.mpi_copied then
            -pt.copy_coeff *
              (if sub.mpi_status = some "done" ∨ sub.mpi_status = some "disabled"
               then (pt.mpi_points.S : ℚ) else 0)
          else 0
        copy_class :=
          if sub.mpi_copied ∨ sub.mpi_status = some "disabled"
          then "cell-warning" else "" } := rfl

theorem proc_calc_report (pt : ProcessTask) (git : String → Option ℤ)
    (sub : ProcessSubmission) :
    (pt.calculate_score git (some sub)).report_points =
      if sub.report_present then (pt.r_points : ℚ) else 0 := rfl

/-- C6 counterexample: a process submission whose mpi side was never
attempted (`mpi_status = None`) but which still has benchmark times earns
10 mpi performance points — the mpi side is NOT all-zero when its status is
missing. -/
theorem c6_missing_side_cex :
    (mpiCexTask.calculate_score noGit (some mpiAbsentTimedSub)).mpi.performance_points
      = 10
    ∧ mpiAbsentTimedSub.mpi_status = Option.none := by
  refine ⟨?_, rfl⟩
  rw [proc_calc_mpi]
  show efficiency_to_points mpiCexTask.efficiency_scale
      (performance_metrics mpiCexTask.eff_num_proc mpiAbsentTimedSub.mpi_time
        mpiAbsentTimedSub.seq_time).1 mpiCexTask.mpi_points.A = 10
  have hm : (performance_metrics mpiCexTask.eff_num_proc
      mpiAbsentTimedSub.mpi_time mpiAbsentTimedSub.seq_time).1
      = some ((8:ℚ) / 1 / ((1:ℤ):ℚ)) := by
    show (performance_metrics 1 (.num 1) (.num 8)).1 = _
    unfold performance_metrics
    norm_num [pyFloat, isInvalidVal]
  rw [hm]
  simp only [efficiency_to_points, mpiCexTask]
  rw [if_neg (by norm_num)]
  rw [show List.find? (fun tp => decide (tp.1 ≤ (8:ℚ) / 1 / ((1:ℤ):ℚ)))
      [((1:ℚ)/2, (1:ℚ))] = some (1/2, 1) from by norm_num [List.find?]]
  show round2 (((10:ℤ):ℚ) * 1) = 10
  rw [mul_one, round2_intCast]
  norm_num

/-- C6 (amended): for every `ProcessSubmission`, `ProcessScore.total` equals
`seq.total + mpi.total + report_points` exactly; the report bonus appears
once (0 or the full shared budget); a side whose status is missing scores
zero on all its status-driven components (solution, deadline, copy), the
seq side is numerically all-zero, and the mpi side is numerically all-zero
provided its timing data is also missing or malformed. -/
theorem c6_process_total_amended (pt : ProcessTask) (git : String → Option ℤ)
    (sub : ProcessSubmission) :
    ((pt.calculate_score git (some sub)).total
      = (pt.calculate_score git (some sub)).seq.total
        + (pt.calculate_score git (some sub)).mpi.total
        + (pt.calculate_score git (some sub)).report_points)
    ∧ ((pt.calculate_score git (some sub)).report_points
        = if sub.report_present then (pt.r_points : ℚ) else 0)
    ∧ (sub.seq_status = Option.none →
        (pt.calculate_score git (some sub)).seq.solution_points = 0
        ∧ (pt.calculate_score git (some sub)).seq.performance_points = 0
        ∧ (pt.calculate_score git (some sub)).seq.deadline_penalty = 0
        ∧ (pt.calculate_score git (some sub)).seq.copy_penalty = 0
        ∧ (pt.calculate_score git (some sub)).seq.report_points = 0
        ∧ (pt.calculate_score git (some sub)).seq.total = 0)
    ∧ (sub.mpi_status = Option.none →
        (pt.calculate_score git (some sub)).mpi.solution_points = 0
        ∧ (pt.calculate_score git (some sub)).mpi.deadline_penalty = 0
        ∧ (pt.calculate_score git (some sub)).mpi.copy_penalty = 0
        ∧ (pt.calculate_score git (some sub)).mpi.report_points = 0)
    ∧ (sub.mpi_status = Option.none →
        (timeBad sub.mpi_time = true ∨ timeBad sub.seq_time = true) →
        (pt.calculate_score git (some sub)).mpi.performance_points = 0
        ∧ (pt.calculate_score git (some sub)).mpi.total = 0) := by
  refine ⟨?_, proc_calc_report pt git sub, ?_, ?_, ?_⟩
  · obtain ⟨k1, h1⟩ :=
      taskScore_total_hundredth (pt.calculate_score git (some sub)).seq
    obtain ⟨k2, h2⟩ :=
      taskScore_total_hundredth (pt.calculate_score git (some sub)).mpi
    obtain ⟨k3, h3⟩ : ∃ k3 : ℤ,
        (pt.calculate_score git (some sub)).report_points = (k3 : ℚ) / 100 := by
      rw [proc_calc_report]
      split_ifs
      · exact ⟨100 * pt.r_points, by push_cast; ring⟩
      · exact ⟨0, by norm_num⟩
    show ProcessScore.total _ = _
    unfold ProcessScore.total
    rw [h1, h2, h3]
    rw [show (k1 : ℚ)/100 + (k2 : ℚ)/100 + (k3 : ℚ)/100
        = ((k1 + k2 + k3 : ℤ) : ℚ)/100 from by push_cast; ring]
    exact round2_hundredth _
  · intro hnone
    rw [proc_calc_seq]
    simp [hnone, TaskScore.total, round2_zero, deadline_penalty_of_ne_done]
  · intro hnone
    rw [proc_calc_mpi]
    simp [hnone, deadline_penalty_of_ne_done]
  · intro hnone hbad
    have hperf : efficiency_to_points pt.efficiency_scale
        (performance_metrics pt.eff_num_proc sub.mpi_time sub.seq_time).1
        pt.mpi_points.A = 0 := by
      rw [performance_metrics_bad pt.eff_num_proc sub.mpi_time sub.seq_time hbad]
      rfl
    constructor
    · rw [proc_calc_mpi]
      exact hperf
    · rw [proc_calc_mpi]
      simp [hnone, deadline_penalty_of_ne_done, TaskScore.total, hperf,
        round2_zero]

-- ---------------------------------------------------------------------------
-- Association-list lemmas for the assembly proofs
-- ---------------------------------------------------------------------------

theorem alookup_append_of_isSome {beta : Type} {l : List (String × beta)}
    {k : String} (h : (alookup l k).isSome = true) (l2 : List (String × beta)) :
    alookup (l ++ l2) k = alookup l k := by
  induction l with
  | nil => simp [alookup] at h
  | cons hd tl ih =>
      obtain ⟨k1, v1⟩ := hd
      by_cases hk : k1 = k
      · simp [alookup, hk]
      · simp only [alookup, if_neg hk] at h
        simp only [List.cons_append, alookup, if_neg hk]
        exact ih h

theorem alookup_append_right {beta : Type} {l : List (String × beta)}
    {k : String} (h : alookup l k = Option.none) (v : beta) :
    alookup (l ++ [(k, v)]) k = some v := by
  induction l with
  | nil => simp [alookup]
  | cons hd tl ih =>
      obtain ⟨k1, v1⟩ := hd
      by_cases hk : k1 = k
      · simp [alookup, hk] at h
      · simp only [alookup, if_neg hk] at h
        simp only [List.cons_append, alookup, if_neg hk]
        exact ih h

theorem alookup_append_self_isSome {beta : Type} (l : List (String × beta))
    (k : String) (v : beta) :
    (alookup (l ++ [(k, v)]) k).isSome = true := by
  cases h : alookup l k with
  | none => rw [alookup_append_right h v]; rfl
  | some w =>
      rw [alookup_append_of_isSome (by rw [h]; rfl) [(k, v)], h]
      rfl

theorem alookup_updateStudent_self {m : List (String × PStudent)} {key : String}
    (st : PStudent) (h : (alookup m key).isSome = true) :
    alookup (updateStudent m key st) key = some st := by
  induction m with
  | nil => simp [alookup] at h
  | cons hd tl ih =>
      obtain ⟨k1, v1⟩ := hd
      by_cases hk : k1 = key
      · simp [updateStudent, alookup, hk]
      · simp only [alookup, if_neg hk] at h
        simp only [updateStudent, if_neg hk, alookup]
        exact ih h

theorem alookup_updateStudent_other {m : List (String × PStudent)} {key k : String}
    (st : PStudent) (h : k ≠ key) :
    alookup (updateStudent m key st) k = alookup m k := by
  induction m with
  | nil => rfl
  | cons hd tl ih =>
      obtain ⟨k1, v1⟩ := hd
      by_cases hk : k1 = key
      · subst hk
        simp only [updateStudent, if_pos rfl, alookup]
        rw [if_neg (Ne.symm h), if_neg (Ne.symm h)]
      · simp only [updateStudent, if_neg hk, alookup]
        by_cases hk2 : k1 = k
        · rw [if_pos hk2, if_pos hk2]
        · rw [if_neg hk2, if_neg hk2]
          exact ih

-- ---------------------------------------------------------------------------
-- Identity-key and parse lemmas
-- ---------------------------------------------------------------------------

/-- The identity key always contains its three pipe separators, so it is
never the empty string; the `if not identity: continue` skip branch in
`_build_process_students` is consequently unreachable. -/
theorem identity_key_info_ne_empty (info : StudentInfo) :
    identity_key_info info ≠ "" := by
  unfold identity_key_info
  intro h
  have hlen := congrArg String.length h
  simp only [String.length_append] at hlen
  simp only [show ("|" : String).length = 1 from rfl,
    show ("" : String).length = 0 from rfl] at hlen
  omega

theorem mkPStudent_identity_key (info : StudentInfo) :
    (mkPStudent info).identity_key = identity_key_info info := rfl

theorem parse_via_folderTaskNumber (f : Folder) (wd idk : String) :
    parse_task_number f.info wd idk =
      (match folderTaskNumber f with
       | some n => .ok n
       | Option.none => .error (.invalidTaskNumber wd idk)) := by
  unfold parse_task_number folderTaskNumber
  cases f.info.task_number with
  | none => rfl
  | some v => cases pyInt v <;> rfl

-- ---------------------------------------------------------------------------
-- processFolder lemmas
-- ---------------------------------------------------------------------------

theorem processFolder_not_ok_of_parse_fail {nt : ℤ}
    {acc : List (String × PStudent)} {f : Folder}
    (hbad : folderTaskNumber f = Option.none) :
    ∀ acc', processFolder nt acc f ≠ .ok acc' := by
  intro acc' h
  unfold processFolder at h
  rw [if_neg (identity_key_info_ne_empty f.info)] at h
  rw [parse_via_folderTaskNumber, hbad] at h
  exact Except.noConfusion h

theorem processFolder_not_ok_of_out_of_range {nt : ℤ}
    {acc : List (String × PStudent)} {f : Folder} {n : ℤ}
    (hn : folderTaskNumber f = some n) (hrange : n < 1 ∨ nt < n) :
    ∀ acc', processFolder nt acc f ≠ .ok acc' := by
  intro acc' h
  unfold processFolder at h
  rw [if_neg (identity_key_info_ne_empty f.info)] at h
  rw [parse_via_folderTaskNumber, hn] at h
  unfold validate_task_number at h
  dsimp only at h
  by_cases h0 : nt ≤ 0
  · rw [if_pos h0] at h
    exact Except.noConfusion h
  · rw [if_neg h0, if_pos hrange] at h
    exact Except.noConfusion h

theorem alookup_append_single_ne {beta : Type} (l : List (String × beta))
    {k k' : String} (h : k ≠ k') (v : beta) :
    alookup (l ++ [(k, v)]) k' = alookup l k' := by
  induction l with
  | nil => simp [alookup, h]
  | cons hd tl ih =>
      obtain ⟨k1, v1⟩ := hd
      by_cases hk : k1 = k'
      · simp [alookup, hk]
      · simp only [List.cons_append, alookup, if_neg hk]
        exact ih

theorem processFolder_ok_elim {nt : ℤ} {acc : List (String × PStudent)}
    {f : Folder} {acc' : List (String × PStudent)}
    (h : processFolder nt acc f = .ok acc') :
    ∃ n, folderTaskNumber f = some n
      ∧ (alookup (pfStudent acc f).process_submissions (mpiTaskName n)).isSome
          = false
      ∧ acc' = updateStudent (pfAcc1 acc f) (identity_key_info f.info)
          ((pfStudent acc f).add_process_submission (mpiTaskName n)
            (make_process_submission n f)) := by
  unfold processFolder at h
  rw [if_neg (identity_key_info_ne_empty f.info)] at h
  rw [parse_via_folderTaskNumber] at h
  cases hn : folderTaskNumber f with
  | none =>
      rw [hn] at h
      exact Except.noConfusion h
  | some n =>
      rw [hn] at h
      dsimp only at h
      cases hv : validate_task_number n nt f.work_dir (identity_key_info f.info) with
      | error e =>
          rw [hv] at h
          exact Except.noConfusion h
      | ok u =>
          rw [hv] at h
          dsimp only at h
          cases he : ensure_unique_submission
              (match alookup acc (identity_key_info f.info) with
               | some st => st
               | Option.none => mkPStudent f.info)
              ("mpi_task_" ++ toString n) f.work_dir
              (identity_key_info f.info) with
          | error e =>
              rw [he] at h
              exact Except.noConfusion h
          | ok u2 =>
              rw [he] at h
              dsimp only at h
              refine ⟨n, rfl, ?_, ?_⟩
              · unfold ensure_unique_submission at he
                by_cases hs : (alookup (pfStudent acc f).process_submissions
                    (mpiTaskName n)).isSome = true
                · rw [if_pos (by
                      unfold pfStudent at hs
                      exact hs)] at he
                  exact Except.noConfusion he
                · exact Bool.not_eq_true _ ▸ hs
              · have hinj := Except.ok.inj h
                rw [← hinj]
                unfold pfStudent pfAcc1
                cases hfound : alookup acc (identity_key_info f.info) <;> rfl

theorem processFolder_not_ok_of_dup {nt : ℤ} {acc : List (String × PStudent)}
    {f : Folder} {n : ℤ} (hn : folderTaskNumber f = some n)
    (hp : hasPair acc (identity_key_info f.info) (mpiTaskName n)) :
    ∀ acc', processFolder nt acc f ≠ .ok acc' := by
  intro acc' h
  obtain ⟨n', hn', hfresh, _⟩ := processFolder_ok_elim h
  rw [hn] at hn'
  injection hn' with he
  subst he
  obtain ⟨st0, hl, hsome⟩ := hp
  unfold pfStudent at hfresh
  rw [hl] at hfresh
  dsimp only at hfresh
  rw [hsome] at hfresh
  exact Bool.noConfusion hfresh

theorem processFolder_ok_mono {nt : ℤ} {acc : List (String × PStudent)}
    {f : Folder} {acc' : List (String × PStudent)}
    (h : processFolder nt acc f = .ok acc') {idk tn : String}
    (hp : hasPair acc idk tn) : hasPair acc' idk tn := by
  obtain ⟨n, hn, hfresh, hacc⟩ := processFolder_ok_elim h
  obtain ⟨st0, hl, hsome⟩ := hp
  subst hacc
  by_cases hid : idk = identity_key_info f.info
  · subst hid
    have hstu : pfStudent acc f = st0 := by
      unfold pfStudent
      rw [hl]
    have hacc1 : pfAcc1 acc f = acc := by
      unfold pfAcc1
      rw [hl]
    refine ⟨(pfStudent acc f).add_process_submission (mpiTaskName n)
        (make_process_submission n f), ?_, ?_⟩
    · apply alookup_updateStudent_self
      rw [hacc1, hl]
      rfl
    · unfold PStudent.add_process_submission
      dsimp only
      rw [hstu]
      rw [alookup_append_of_isSome hsome]
      exact hsome
  · refine ⟨st0, ?_, hsome⟩
    rw [alookup_updateStudent_other _ hid]
    have hstep : alookup (pfAcc1 acc f) idk = alookup acc idk := by
      unfold pfAcc1
      cases hfound : alookup acc (identity_key_info f.info) with
      | some st => rfl
      | none =>
          dsimp only
          rw [mkPStudent_identity_key]
          exact alookup_append_single_ne acc (fun hh => hid hh.symm) _
  
    rw [hstep, hl]

theorem processFolder_ok_pair {nt : ℤ} {acc : List (String × PStudent)}
    {f : Folder} {acc' : List (String × PStudent)}
    (h : processFolder nt acc f = .ok acc') :
    ∃ n, folderTaskNumber f = some n
      ∧ hasPair acc' (identity_key_info f.info) (mpiTaskName n) := by
  obtain ⟨n, hn, hfresh, hacc⟩ := processFolder_ok_elim h
  refine ⟨n, hn, ?_⟩
  subst hacc
  refine ⟨(pfStudent acc f).add_process_submission (mpiTaskName n)
      (make_process_submission n f), ?_, ?_⟩
  · apply alookup_updateStudent_self
    unfold pfAcc1
    cases hfound : alookup acc (identity_key_info f.info) with
    | some st => rw [hfound]; rfl
    | none =>
        dsimp only
        rw [mkPStudent_identity_key]
        exact alookup_append_self_isSome acc _ _
  · unfold PStudent.add_process_submission
    dsimp only
    exact alookup_append_self_isSome _ _ _

theorem build_not_ok_of_parse_fail (nt : ℤ) :
    ∀ (folders : List Folder) (acc : List (String × PStudent)),
      (∃ f ∈ folders, folderTaskNumber f = Option.none) →
      ∀ m, buildProcessStudents nt folders acc ≠ .ok m := by
  intro folders
  induction folders with
  | nil =>
      intro acc hex m h
      rcases hex with ⟨f, hf, _⟩
      simp at hf
  | cons g rest ih =>
      intro acc hex m h
      unfold buildProcessStudents at h
      cases hg : processFolder nt acc g with
      | error e =>
          rw [hg] at h
          exact Except.noConfusion h
      | ok acc1 =>
          rw [hg] at h
          rcases hex with ⟨f, hf, hbad⟩
          rcases List.mem_cons.mp hf with rfl | hf'
          · exact processFolder_not_ok_of_parse_fail hbad acc1 hg
          · exact ih acc1 ⟨f, hf', hbad⟩ m h

theorem build_not_ok_of_out_of_range (nt : ℤ) :
    ∀ (folders : List Folder) (acc : List (String × PStudent)),
      (∃ f ∈ folders, ∃ n, folderTaskNumber f = some n ∧ (n < 1 ∨ nt < n)) →
      ∀ m, buildProcessStudents nt folders acc ≠ .ok m := by
  intro folders
  induction folders with
  | nil =>
      intro acc hex m h
      rcases hex with ⟨f, hf, _⟩
      simp at hf
  | cons g rest ih =>
      intro acc hex m h
      unfold buildProcessStudents at h
      cases hg : processFolder nt acc g with
      | error e =>
          rw [hg] at h
          exact Except.noConfusion h
      | ok acc1 =>
          rw [hg] at h
          rcases hex with ⟨f, hf, n, hn, hrange⟩
          rcases List.mem_cons.mp hf with rfl | hf'
          · exact processFolder_not_ok_of_out_of_range hn hrange acc1 hg
          · exact ih acc1 ⟨f, hf', n, hn, hrange⟩ m h

theorem build_ok_no_existing_pair (nt : ℤ) :
    ∀ (folders : List Folder) (acc m : List (String × PStudent)),
      buildProcessStudents nt folders acc = .ok m →
      ∀ g ∈ folders, ∀ n, folderTaskNumber g = some n →
        ¬ hasPair acc (identity_key_info g.info) (mpiTaskName n) := by
  intro folders
  induction folders with
  | nil =>
      intro acc m h g hg
      simp at hg
  | cons f rest ih =>
      intro acc m h g hgmem n hgn hp
      unfold buildProcessStudents at h
      cases hf : processFolder nt acc f with
      | error e =>
          rw [hf] at h
          exact Except.noConfusion h
      | ok acc1 =>
          rw [hf] at h
          rcases List.mem_cons.mp hgmem with rfl | hg'
          · exact processFolder_not_ok_of_dup hgn hp acc1 hf
          · exact ih acc1 m h g hg' n hgn (processFolder_ok_mono hf hp)

theorem build_ok_pairwise (nt : ℤ) :
    ∀ (folders : List Folder) (acc m : List (String × PStudent)),
      buildProcessStudents nt folders acc = .ok m →
      folders.Pairwise (fun f g =>
        identity_key_info f.info = identity_key_info g.info →
        ∀ n, folderTaskNumber f = some n → folderTaskNumber g ≠ some n) := by
  intro folders
  induction folders with
  | nil =>
      intro acc m h
      exact List.Pairwise.nil
  | cons f rest ih =>
      intro acc m h
      unfold buildProcessStudents at h
      cases hf : processFolder nt acc f with
      | error e =>
          rw [hf] at h
          exact Except.noConfusion h
      | ok acc1 =>
          rw [hf] at h
          refine List.Pairwise.cons ?_ (ih acc1 m h)
          intro g hgmem hid n hfn hgn
          obtain ⟨n', hn', hpair⟩ := processFolder_ok_pair hf
          rw [hfn] at hn'
          injection hn' with he
          subst he
          rw [hid] at hpair
          exact build_ok_no_existing_pair nt rest acc1 m h g hgmem n hgn hpair

-- ---------------------------------------------------------------------------
-- C8
-- ---------------------------------------------------------------------------

/-- C8 counterexample: a folder whose `task_number` is the non-integral
JSON number 2.5 does NOT abort assembly — Python `int()` silently truncates
it, and the build succeeds, recording the submission under task 2. -/
theorem c8_nonintegral_task_number_cex :
    (buildProcessStudents 3 [halfTaskNumberFolder] []).isOk = true
    ∧ halfTaskNumberFolder.info.task_number = some (.float fiveHalves)
    ∧ (¬ ∃ z : ℤ, fiveHalves = (z : ℚ))
    ∧ buildProcessStudents 3 [halfTaskNumberFolder] []
        = .ok [("A|||G1", halfResultStudent)] := by
  refine ⟨rfl, rfl, ?_, rfl⟩
  rintro ⟨z, hz⟩
  have h52 : fiveHalves = 5 / 2 := by
    rw [fiveHalves, Rat.mk'_eq_divInt, Rat.divInt_eq_div]
    norm_num
  rw [h52] at hz
  have h5 : (5 : ℚ) = (z : ℚ) * 2 := by
    rw [div_eq_iff (by norm_num : (2:ℚ) ≠ 0)] at hz
    exact hz
  have h5z : (5 : ℤ) = z * 2 := by exact_mod_cast h5
  omega

/-- C8 (amended): process-track assembly raises a fatal error naming the
offending folder and student whenever Python `int()` rejects a folder's
`task_number` (non-numeric string or null; a fractional number is instead
silently truncated toward zero), or the converted number falls outside
`[1, configured process task count]`, and a successful build never contains
two folders claiming the same task number for the same identity — no
duplicate is silently overwritten. -/
theorem c8_assembly_fatal_amended (nt : ℤ) (folders : List Folder)
    (acc : List (String × PStudent)) :
    ((∃ f ∈ folders, folderTaskNumber f = Option.none) →
      (buildProcessStudents nt folders acc).isOk = false)
    ∧ ((∃ f ∈ folders, ∃ n, folderTaskNumber f = some n ∧ (n < 1 ∨ nt < n)) →
      (buildProcessStudents nt folders acc).isOk = false)
    ∧ (∀ m, buildProcessStudents nt folders acc = .ok m →
        folders.Pairwise (fun f g =>
          identity_key_info f.info = identity_key_info g.info →
          ∀ n, folderTaskNumber f = some n → folderTaskNumber g ≠ some n)) := by
  refine ⟨?_, ?_, ?_⟩
  · intro hex
    cases hb : buildProcessStudents nt folders acc with
    | error e => rfl
    | ok m => exact absurd hb (build_not_ok_of_parse_fail nt folders acc hex m)
  · intro hex
    cases hb : buildProcessStudents nt folders acc with
    | error e => rfl
    | ok m => exact absurd hb (build_not_ok_of_out_of_range nt folders acc hex m)
  · intro m h
    exact build_ok_pairwise nt folders acc m h

/-- C8 witness: a folder whose `task_number` is the non-numeric string
`"x"` makes the build fail. -/
theorem c8_assembly_fatal_amended_witness :
    (buildProcessStudents 3 [badStringTaskNumberFolder] []).isOk = false := by
  exact (c8_assembly_fatal_amended 3 [badStringTaskNumberFolder] []).1
    ⟨badStringTaskNumberFolder, List.mem_singleton.mpr rfl, rfl⟩

-- ---------------------------------------------------------------------------
-- C9
-- ---------------------------------------------------------------------------

/-- C9 (code bug): the "skip folders with empty student metadata" branch of
`_build_process_students` is dead code — the identity key always contains
its three pipe separators, so `if not identity` never fires. A folder with
entirely empty metadata is processed into a real student row keyed `"|||"`
instead of being logged and skipped; the consistency guard counts it on
both sides (and does raise on any genuine count mismatch). -/
theorem c9_empty_info_not_skipped :
    (∀ info : StudentInfo, identity_key_info info ≠ "")
    ∧ identity_key_info ({} : StudentInfo) = "|||"
    ∧ buildProcessStudents 3 [emptyInfoFolder] []
        = .ok [("|||", emptyResultStudent)]
    ∧ (processes_consistency_guard [emptyInfoFolder]
        [("|||", emptyResultStudent)]).isOk = true
    ∧ (processes_consistency_guard [emptyInfoFolder] []).isOk = false := by
  exact ⟨identity_key_info_ne_empty, rfl, rfl, rfl, rfl⟩

/-- C6 witness: with both sides missing and no data, the seq side totals 0
and the mpi side earns no performance points. -/
theorem c6_process_total_amended_witness :
    (mpiCexTask.calculate_score noGit (some bothMissingSub)).seq.total = 0
    ∧ (mpiCexTask.calculate_score noGit (some bothMissingSub)).mpi.performance_points
        = 0 := by
  have h := c6_process_total_amended mpiCexTask noGit bothMissingSub
  exact ⟨(h.2.2.1 rfl).2.2.2.2.2, (h.2.2.2.2 rfl (Or.inl (by decide))).1⟩
